import Mathlib

/-!
Shallow embedding of the query-orchestration and caching pipeline of the
RAG documentation service (source: `src/utils/cache.py`, `src/utils/rate_limit.py`,
`src/utils/response_quality.py`, `src/models/query.py`, `src/services/rag_service.py`).

Modelling conventions:
* Python floats (timestamps, durations, relevance scores, embedding components)
  are modelled as rationals (ℚ); `time.time()` values are passed in explicitly
  as parameters.
* Python dictionaries keyed by strings are modelled as functions `String → Option _`.
* `hashlib.md5(x).hexdigest()` in the cache key is modelled as the identity on
  its input string: the development relies only on the hash being a
  deterministic function of the input, and the collision exhibited for C10
  already arises in the concatenated pre-image that is hashed.
* Exceptions are modelled with `Except String`; a `.error` value models a
  raised exception carrying `str(e)`.
* `uuid.uuid4()` and `datetime.utcnow()` are modelled as values supplied by the
  environment (`Env.freshUuid`, `Env.now`): they stand for the fresh identifier
  and timestamp generated at response-construction time.
* Strings are assumed newline-free where the pydantic URL pattern
  `^https?://.+$|^/.*$` is concerned, so `.` matches any remaining character.
-/

/-! ## `src/utils/cache.py` — SimpleCache -/

/-- Model of `SimpleCache._generate_key`: `md5(f"{query}::{selected_text}").hexdigest()`.
The md5 hexdigest is modelled as the identity embedding of its input (see the
module comment); the Python default argument `selected_text=""` is kept. -/
def generate_key (query : String) (selected_text : String := "") : String :=
  query ++ "::" ++ selected_text

/-- The cache of `src/utils/cache.py`: a dict from key to
`{"value": value, "expiry": expiry}` plus the constructor default TTL. -/
structure SimpleCache (α : Type) where
  cache : String → Option (α × ℚ)
  default_ttl : Int := 3600

/-- Constructor `SimpleCache()` with an empty dict and `default_ttl = 3600`. -/
def SimpleCache.empty (α : Type) : SimpleCache α := { cache := fun _ => none }

/-- Model of `SimpleCache.get`: lazy-expiry lookup. Returns the observed value and the
cache state afterwards (an expired entry is deleted as a side effect). -/
def SimpleCache.get {α : Type} (c : SimpleCache α) (now : ℚ) (query : String)
    (selected_text : String := "") : Option α × SimpleCache α :=
  let key := generate_key query selected_text
  match c.cache key with
  | some item =>
      if now > item.2 then
        (none, { c with cache := fun k => if k = key then none else c.cache k })
      else
        (some item.1, c)
  | none => (none, c)

/-- Model of `SimpleCache.set`: stores `{"value": value, "expiry": time.time() + ttl}`,
with `ttl=None` resolved to the default TTL. -/
def SimpleCache.set {α : Type} (c : SimpleCache α) (now : ℚ) (query : String) (value : α)
    (selected_text : String := "") (ttl : Option Int := none) : SimpleCache α :=
  let key := generate_key query selected_text
  let t : Int := ttl.getD c.default_ttl
  { c with cache := fun k => if k = key then some (value, now + (t : ℚ)) else c.cache k }

/-- Model of `SimpleCache.delete`: removes the entry if present, reporting whether it was. -/
def SimpleCache.delete {α : Type} (c : SimpleCache α) (query : String)
    (selected_text : String := "") : Bool × SimpleCache α :=
  let key := generate_key query selected_text
  match c.cache key with
  | some _ => (true, { c with cache := fun k => if k = key then none else c.cache k })
  | none => (false, c)

/-! ## `src/utils/rate_limit.py` — RateLimiter -/

/-- The rate limiter state: configured per-minute limit and the
`defaultdict(list)` of request timestamps per API key. The lock is not
modelled: all operations here are the atomic critical section. -/
structure RateLimiter where
  requests_per_minute : Nat
  requests : String → List ℚ

/-- Constructor `RateLimiter(requests_per_minute)` with an empty timestamp map. -/
def RateLimiter.new (requests_per_minute : Nat) : RateLimiter :=
  { requests_per_minute := requests_per_minute, requests := fun _ => [] }

/-- Model of `RateLimiter.is_allowed`: prune timestamps older than 60s for the key,
then allow (recording `now`) iff the remaining count is below the limit.
`now` models `time.time()` at the call. -/
def RateLimiter.is_allowed (rl : RateLimiter) (now : ℚ) (api_key : String) :
    Bool × RateLimiter :=
  let pruned := (rl.requests api_key).filter (fun t => decide (now - t < 60))
  if pruned.length < rl.requests_per_minute then
    (true, { rl with requests := fun k => if k = api_key then pruned ++ [now] else rl.requests k })
  else
    (false, { rl with requests := fun k => if k = api_key then pruned else rl.requests k })

/-- A sequence of `is_allowed` calls for one API key at the given times,
collecting the returned booleans and the final limiter state. -/
def runCalls (rl : RateLimiter) (api_key : String) : List ℚ → List Bool × RateLimiter
  | [] => ([], rl)
  | t :: ts =>
      let res := rl.is_allowed t api_key
      let rest := runCalls res.2 api_key ts
      (res.1 :: rest.1, rest.2)

/-! ## `src/models/query.py` — pydantic models

The pydantic `Field` constraints are part of construction: building a model
instance validates them and raises `ValidationError` on violation, so the
constructors are modelled as `Except String _`. -/

/-- Python `s.startswith(pre)`, modelled on the character list so that it
evaluates by kernel reduction. -/
def strStartsWith (s pre : String) : Bool := pre.data.isPrefixOf s.data

/-- Python `s[:n]`, modelled on the character list. -/
def strTake (s : String) (n : Nat) : String := ⟨s.data.take n⟩

/-- Python `s.strip()`: drop leading and trailing whitespace. -/
def strTrim (s : String) : String :=
  ⟨((s.data.dropWhile Char.isWhitespace).reverse.dropWhile Char.isWhitespace).reverse⟩

/-- Citation key/value metadata dictionaries (`dict` fields). -/
abbrev MetaDict := List (String × String)

/-- A validated `Citation` instance. -/
structure Citation where
  document_id : String
  title : String
  url : String
  text_snippet : String
  relevance_score : ℚ
deriving DecidableEq

/-- The pydantic pattern `^https?://.+$|^/.*$` on `Citation.url`
(on newline-free strings). -/
def citationUrlOk (u : String) : Bool :=
  (strStartsWith u "http://" && decide (7 < u.length)) ||
  (strStartsWith u "https://" && decide (8 < u.length)) ||
  strStartsWith u "/"

/-- Constructor `Citation(...)`: field validation of `src/models/query.py` lines 7-18:
`url` must match the URL pattern, `text_snippet` must have length 10..1000,
`relevance_score` must lie in [0, 1]. -/
def mkCitation (document_id title url text_snippet : String) (relevance_score : ℚ) :
    Except String Citation :=
  if citationUrlOk url then
    if 10 ≤ text_snippet.length ∧ text_snippet.length ≤ 1000 then
      if 0 ≤ relevance_score ∧ relevance_score ≤ 1 then
        .ok { document_id := document_id, title := title, url := url,
              text_snippet := text_snippet, relevance_score := relevance_score }
      else .error "Citation.relevance_score: value out of range"
    else .error "Citation.text_snippet: length out of range"
  else .error "Citation.url: string does not match pattern"

/-- Model of `QueryRequest`. `selected_text` defaults to the empty string as in
`Field(default="")`; the request-level length constraints are enforced by the
HTTP boundary before the orchestrator runs and are not needed here. -/
structure QueryRequest where
  query : String
  selected_text : String := ""
  session_id : Option String := none
  metadata : Option MetaDict := none
deriving DecidableEq

/-- A validated `QueryResponse` instance. -/
structure QueryResponse where
  answer : String
  citations : List Citation
  query_id : String
  timestamp : String
  metadata : Option MetaDict := none
deriving DecidableEq

/-- Constructor `QueryResponse(...)`: field validation of `src/models/query.py` lines
42-52: `answer` must have length 1..10000 and `citations` at most 20 items.
Citations passed as already-constructed `Citation` instances are not
re-validated (pydantic v2 does not revalidate model instances). -/
def mkQueryResponse (answer : String) (citations : List Citation)
    (query_id timestamp : String) (metadata : Option MetaDict) :
    Except String QueryResponse :=
  if 1 ≤ answer.length ∧ answer.length ≤ 10000 then
    if citations.length ≤ 20 then
      .ok { answer := answer, citations := citations, query_id := query_id,
            timestamp := timestamp, metadata := metadata }
    else .error "QueryResponse.citations: too many items"
  else .error "QueryResponse.answer: length out of range"

/-- The plain-data form of a citation inside `response.model_dump()`. -/
structure CitationData where
  document_id : String
  title : String
  url : String
  text_snippet : String
  relevance_score : ℚ
deriving DecidableEq

/-- The plain-data form of `response.model_dump()`, as stored in the cache. -/
structure RespData where
  answer : String
  citations : List CitationData
  query_id : String
  timestamp : String
  metadata : Option MetaDict
deriving DecidableEq

/-- Python `model_dump` of a citation. -/
def Citation.dump (c : Citation) : CitationData :=
  { document_id := c.document_id, title := c.title, url := c.url,
    text_snippet := c.text_snippet, relevance_score := c.relevance_score }

/-- Python `response.model_dump()`. -/
def QueryResponse.dump (r : QueryResponse) : RespData :=
  { answer := r.answer, citations := r.citations.map Citation.dump,
    query_id := r.query_id, timestamp := r.timestamp, metadata := r.metadata }

/-- Re-validating a citation dict (as `QueryResponse(**cached)` does for the
nested citation dicts). -/
def parseCitation (d : CitationData) : Except String Citation :=
  mkCitation d.document_id d.title d.url d.text_snippet d.relevance_score

/-- A Python `for` loop mapping a fallible constructor over a list: results are
accumulated until the first raised exception, which propagates. -/
def mapExcept {α β : Type} (f : α → Except String β) : List α → Except String (List β)
  | [] => .ok []
  | a :: as =>
      match f a with
      | .error e => .error e
      | .ok b =>
          match mapExcept f as with
          | .error e => .error e
          | .ok bs => .ok (b :: bs)

/-- Reconstruction `QueryResponse(**cached_response)`: re-validates the dumped dict,
including each citation dict. -/
def parseQueryResponse (d : RespData) : Except String QueryResponse :=
  match mapExcept parseCitation d.citations with
  | .error e => .error e
  | .ok cs => mkQueryResponse d.answer cs d.query_id d.timestamp d.metadata

/-! ## `src/utils/response_quality.py` — ResponseQualityMetrics -/

/-- The `self.metrics` dictionary of `ResponseQualityMetrics`. -/
structure Metrics where
  total_queries : Nat
  successful_queries : Nat
  failed_queries : Nat
  avg_response_time : ℚ
  total_response_time : ℚ
  avg_citations_per_response : ℚ
  total_citations : Nat
deriving DecidableEq

/-- The all-zero metrics state installed by `__init__` and `reset_metrics`. -/
def initMetrics : Metrics :=
  { total_queries := 0, successful_queries := 0, failed_queries := 0,
    avg_response_time := 0, total_response_time := 0,
    avg_citations_per_response := 0, total_citations := 0 }

/-- Model of `ResponseQualityMetrics.log_query_end`. `response_time` is the elapsed
`end_time - start_time`; `response` is the optional response whose citation
count is accumulated on success. The averages divide the cumulative totals by
`successful_queries`, guarded to 0 when there are no successes. -/
def log_query_end (m : Metrics) (response_time : ℚ) (success : Bool)
    (response : Option QueryResponse) : Metrics :=
  let total_queries := m.total_queries + 1
  let total_response_time := m.total_response_time + response_time
  let successful_queries := if success then m.successful_queries + 1 else m.successful_queries
  let failed_queries := if success then m.failed_queries else m.failed_queries + 1
  let total_citations :=
    if success then
      m.total_citations + (match response with | some r => r.citations.length | none => 0)
    else m.total_citations
  { total_queries := total_queries, successful_queries := successful_queries,
    failed_queries := failed_queries, total_response_time := total_response_time,
    total_citations := total_citations,
    avg_response_time :=
      if 0 < successful_queries then total_response_time / (successful_queries : ℚ) else 0,
    avg_citations_per_response :=
      if 0 < successful_queries then (total_citations : ℚ) / (successful_queries : ℚ) else 0 }

/-- A sequence of successful `log_query_end` calls, each with a duration and
the response it was called with. -/
def runSuccessLogs (m : Metrics) : List (ℚ × QueryResponse) → Metrics
  | [] => m
  | (d, r) :: rest => runSuccessLogs (log_query_end m d true (some r)) rest

/-! ## `src/services/rag_service.py` — RAGService

The external collaborators (the Cohere/OpenAI embedding clients, the Qdrant
search, the agent) are modelled as oracles supplied in an `Env`; a `.error`
result models the collaborator call raising. The cache and metrics singletons
are the structures embedded above; the cache state is threaded explicitly and
the metrics effect is reported as the success flag passed to `log_query_end`. -/

/-- The result dict of a Qdrant search hit as consumed by
`query_documentation` via `doc.get(...)`: every field may be absent. -/
structure Doc where
  document_id : Option String := none
  title : Option String := none
  url : Option String := none
  text_snippet : Option String := none
  relevance_score : Option ℚ := none
deriving DecidableEq

/-- The dict returned by `agent_service.generate_response` as consumed by
`query_documentation`: the `"answer"` value and the optional `"metadata"` key. -/
structure AgentResp where
  answer : String
  metadata : Option MetaDict := none
deriving DecidableEq

/-- Collaborator behaviours for one `query_documentation` call.
`cohereEmbed`/`openaiEmbed` are `some f` when the corresponding client was
initialized, with `f text` the outcome of the raw client call (the list of
embeddings, one per input text). `freshUuid` and `now` are the values produced
by `uuid.uuid4()` / `datetime.utcnow().isoformat() + "Z"`. -/
structure Env where
  cohereEmbed : Option (String → Except String (List (List ℚ)))
  openaiEmbed : Option (String → Except String (List (List ℚ)))
  searchDocs : List ℚ → Except String (List Doc)
  agentGenerate : String → List Doc → String → Except String AgentResp
  freshUuid : String
  now : String

/-- Model of `RAGService.generate_embedding`: try Cohere (`response.embeddings[0]`),
fall back to the OpenAI-compatible endpoint (`response.data[0].embedding`),
fall back to the 1024-dimension mock embedding. Every client exception
(including the IndexError on an empty embeddings list) is caught, so this
never raises; it returns an empty vector only when a client succeeds with an
empty first embedding. -/
def generate_embedding (env : Env) (text : String) : List ℚ :=
  match env.cohereEmbed with
  | some f =>
      match f text with
      | .ok (emb :: _) => emb
      | _ =>
          match env.openaiEmbed with
          | some g =>
              match g text with
              | .ok (emb :: _) => emb
              | _ => List.replicate 1024 0
          | none => List.replicate 1024 0
  | none =>
      match env.openaiEmbed with
      | some g =>
          match g text with
          | .ok (emb :: _) => emb
          | _ => List.replicate 1024 0
      | none => List.replicate 1024 0

/-- Model of `RAGService.validate_citation_links`: keep exactly the citations whose url
is truthy and starts with `http` or `/`. -/
def validate_citation_links (citations : List Citation) : List Citation :=
  citations.filter
    (fun c => c.url != "" && (strStartsWith c.url "http" || strStartsWith c.url "/"))

/-- Model of `RAGService.enhance_citation_relevance`: the identity transform. -/
def enhance_citation_relevance (citations : List Citation) (_query : String) : List Citation :=
  citations

/-- The Citation built from one retrieved document in `query_documentation`
lines 149-157: missing dict fields default to the empty string / 0.0 and the
snippet is truncated to 500 characters before pydantic validation runs. -/
def citationFromDoc (doc : Doc) : Except String Citation :=
  mkCitation (doc.document_id.getD "") (doc.title.getD "") (doc.url.getD "")
    (strTake (doc.text_snippet.getD "") 500) (doc.relevance_score.getD 0)

/-- The embedding input text: `f"{selected_text} {query}"` when
`selected_text` is truthy, else the query alone. -/
def combinedQueryText (req : QueryRequest) : String :=
  if req.selected_text != "" then req.selected_text ++ " " ++ req.query else req.query

/-- The fixed answer of the no-results branch. -/
def noResultsAnswer : String :=
  "I couldn\x27t find any relevant documents to answer your question."

/-- The fixed answer of the error branch. -/
def errorAnswer : String :=
  "Sorry, I encountered an error while processing your request."

/-- The error response built in the `except` handler of `query_documentation`:
apology answer, no citations, fresh id/timestamp, error note in metadata. -/
def errorResponse (e : String) (env : Env) : QueryResponse :=
  { answer := errorAnswer, citations := [], query_id := env.freshUuid,
    timestamp := env.now, metadata := some [("error", e)] }

/-- The `try` block of `query_documentation` (lines 98-192): produces the
response, the success flag later passed to `log_query_end`, and the cache
state after the call; a `.error` is an exception reaching the `except`
handler. `c` is the cache singleton state and `tnow` the current
`time.time()`. -/
def tryBody (req : QueryRequest) (env : Env) (c : SimpleCache RespData) (tnow : ℚ) :
    Except String (QueryResponse × Bool × SimpleCache RespData) :=
  let gr := SimpleCache.get c tnow req.query req.selected_text
  match gr.1 with
  | some cached =>
      match parseQueryResponse
          { cached with query_id := env.freshUuid, timestamp := env.now } with
      | .error e => .error e
      | .ok resp => .ok (resp, true, gr.2)
  | none =>
      let emb := generate_embedding env (combinedQueryText req)
      if emb = [] then .error "Failed to generate query embedding"
      else
        match env.searchDocs emb with
        | .error e => .error e
        | .ok [] =>
            .ok ({ answer := noResultsAnswer, citations := [],
                   query_id := env.freshUuid, timestamp := env.now, metadata := none },
                 false, gr.2)
        | .ok (d :: ds) =>
            match env.agentGenerate req.query (d :: ds) req.selected_text with
            | .error e => .error e
            | .ok agent =>
                match mapExcept citationFromDoc (d :: ds) with
                | .error e => .error e
                | .ok raw =>
                    match mkQueryResponse agent.answer
                        (validate_citation_links
                          (enhance_citation_relevance raw req.query))
                        env.freshUuid env.now (some (agent.metadata.getD [])) with
                    | .error e => .error e
                    | .ok resp =>
                        .ok (resp, true,
                          if strTrim resp.answer != "" then
                            SimpleCache.set gr.2 tnow req.query resp.dump
                              req.selected_text (some 7200)
                          else gr.2)

/-- The observable outcome of one `query_documentation` call: the returned
response, the success flag logged to the metrics tracker, and the cache state
afterwards. -/
structure QDResult where
  response : QueryResponse
  loggedSuccess : Bool
  cache : SimpleCache RespData

/-- Model of `RAGService.query_documentation`: the `try` block with its final `except`
catch-all, which converts any exception into the generic error response,
logged as failed, touching the cache no further. This is a total function:
no exception propagates to the caller. -/
def query_documentation (req : QueryRequest) (env : Env) (c : SimpleCache RespData)
    (tnow : ℚ) : QDResult :=
  match tryBody req env c tnow with
  | .ok (resp, success, c2) =>
      { response := resp, loggedSuccess := success, cache := c2 }
  | .error e =>
      { response := errorResponse e env, loggedSuccess := false,
        cache := (SimpleCache.get c tnow req.query req.selected_text).2 }

/-- The pydantic invariants of a `QueryResponse` the caller is promised. -/
def QueryResponse.WellFormed (r : QueryResponse) : Prop :=
  1 ≤ r.answer.length ∧ r.answer.length ≤ 10000 ∧ r.citations.length ≤ 20

/-- The derived averages always equal the guarded quotient of the cumulative
counters of the same state, for every state produced by `log_query_end`. -/
def Metrics.Consistent (m : Metrics) : Prop :=
  m.avg_response_time
    = (if 0 < m.successful_queries then
        m.total_response_time / (m.successful_queries : ℚ) else 0) ∧
  m.avg_citations_per_response
    = (if 0 < m.successful_queries then
        (m.total_citations : ℚ) / (m.successful_queries : ℚ) else 0)

/-- A concrete response with two citations, for the C6 witness. -/
def metricsResp : QueryResponse :=
  { answer := "a concrete answer",
    citations :=
      [ { document_id := "d1", title := "t1", url := "/u1",
          text_snippet := "snippet number one", relevance_score := 1 },
        { document_id := "d2", title := "t2", url := "/u2",
          text_snippet := "snippet number two", relevance_score := 0 } ],
    query_id := "id", timestamp := "ts" }

/-! ## Concrete fixtures used by witnesses and counterexamples -/

/-- A retrieved document dict with every field missing. -/
def emptyDoc : Doc := {}

/-- A well-formed retrieved document with a site-relative URL. -/
def docSlash : Doc :=
  { document_id := some "doc1", title := some "T", url := some "/docs/x",
    text_snippet := some "a snippet with enough characters",
    relevance_score := some 1 }

/-- A well-formed retrieved document with an absolute https URL. -/
def docHttps : Doc :=
  { document_id := some "doc2", title := some "T2", url := some "https://x",
    text_snippet := some "another snippet with enough characters",
    relevance_score := some 0 }

/-- The citation built from `docSlash`. -/
def citSlash : Citation :=
  { document_id := "doc1", title := "T", url := "/docs/x",
    text_snippet := "a snippet with enough characters", relevance_score := 1 }

/-- A concrete request (selected_text omitted). -/
def reqW : QueryRequest := { query := "What is ROS 2?" }

/-- Environment whose retrieval returns `docSlash` and whose generation
succeeds. -/
def envSlash : Env :=
  { cohereEmbed := some (fun _ => .ok [[1]]), openaiEmbed := none,
    searchDocs := fun _ => .ok [docSlash],
    agentGenerate := fun _ _ _ => .ok { answer := "ROS 2 is a robotics middleware." },
    freshUuid := "uuid-1", now := "ts-1" }

/-- Environment whose retrieval returns `docHttps`. -/
def envHttps : Env :=
  { cohereEmbed := some (fun _ => .ok [[1]]), openaiEmbed := none,
    searchDocs := fun _ => .ok [docHttps],
    agentGenerate := fun _ _ _ => .ok { answer := "ROS 2 is a robotics middleware." },
    freshUuid := "uuid-1", now := "ts-1" }

/-- Environment whose generation collaborator raises. -/
def envBoom : Env :=
  { cohereEmbed := some (fun _ => .ok [[1]]), openaiEmbed := none,
    searchDocs := fun _ => .ok [docSlash],
    agentGenerate := fun _ _ _ => .error "boom",
    freshUuid := "uuid-1", now := "ts-1" }

/-- Environment whose embedding client succeeds with an empty first
embedding, so `generate_embedding` returns the empty vector. -/
def envEmbEmpty : Env :=
  { cohereEmbed := some (fun _ => .ok [[]]), openaiEmbed := none,
    searchDocs := fun _ => .ok [docSlash],
    agentGenerate := fun _ _ _ => .ok { answer := "unused" },
    freshUuid := "uuid-1", now := "ts-1" }

/-- Environment whose retrieval yields zero documents. -/
def envNoDocs : Env :=
  { cohereEmbed := some (fun _ => .ok [[1]]), openaiEmbed := none,
    searchDocs := fun _ => .ok [],
    agentGenerate := fun _ _ _ => .ok { answer := "unused" },
    freshUuid := "uuid-1", now := "ts-1" }

/-- Environment whose retrieval returns the all-missing-fields document. -/
def envEmptyDoc : Env :=
  { cohereEmbed := some (fun _ => .ok [[1]]), openaiEmbed := none,
    searchDocs := fun _ => .ok [emptyDoc],
    agentGenerate := fun _ _ _ => .ok { answer := "a generated answer" },
    freshUuid := "uuid-1", now := "ts-1" }

/-! ## Helper lemmas -/

/-- Pruning is a no-op when every recorded timestamp is within the window. -/
theorem filter_window_eq_self (now : ℚ) (l : List ℚ)
    (h : ∀ x ∈ l, now - x < 60) :
    l.filter (fun t => decide (now - t < 60)) = l :=
  List.filter_eq_self.mpr (fun a ha => decide_eq_true (h a ha))

/-- Invariant run of `is_allowed`: starting from a state whose recorded
timestamps together with all upcoming call times lie pairwise within the
60-second window, and whose total count stays within the limit, every call is
allowed and each call time is appended. -/
theorem runCalls_under_limit (key : String) :
    ∀ (ts : List ℚ) (rl : RateLimiter),
      (∀ x ∈ rl.requests key ++ ts, ∀ y ∈ ts, y - x < 60) →
      (rl.requests key).length + ts.length ≤ rl.requests_per_minute →
      (runCalls rl key ts).1 = List.replicate ts.length true ∧
      (runCalls rl key ts).2.requests key = rl.requests key ++ ts ∧
      (runCalls rl key ts).2.requests_per_minute = rl.requests_per_minute := by
  intro ts
  induction ts with
  | nil => intro rl _ _; simp [runCalls]
  | cons t ts ih =>
      intro rl hwin hlen
      have hmemt : t ∈ rl.requests key ++ t :: ts := by simp
      have hfilter : (rl.requests key).filter (fun x => decide (t - x < 60)) = rl.requests key := by
        apply filter_window_eq_self
        intro x hx
        exact hwin x (by simp [hx]) t (by simp)
      have hlt : (rl.requests key).length < rl.requests_per_minute := by
        simp at hlen; omega
      have hstep : rl.is_allowed t key =
          (true, { rl with requests :=
            fun k => if k = key then rl.requests key ++ [t] else rl.requests k }) := by
        simp [RateLimiter.is_allowed, hfilter, hlt]
      set rl2 : RateLimiter :=
        { rl with requests := fun k => if k = key then rl.requests key ++ [t] else rl.requests k }
        with hrl2
      have hreq2 : rl2.requests key = rl.requests key ++ [t] := by simp [hrl2]
      have hpm2 : rl2.requests_per_minute = rl.requests_per_minute := rfl
      have happ : rl2.requests key ++ ts = rl.requests key ++ t :: ts := by
        simp [hreq2]
      have ih2 := ih rl2 (by rw [happ]; intro x hx y hy; exact hwin x hx y (by simp [hy]))
        (by rw [hreq2]; simp at hlen ⊢; omega)
      refine ⟨?_, ?_, ?_⟩
      · simp only [runCalls, hstep, ih2.1, List.length_cons, List.replicate_succ]
      · simp only [runCalls, hstep]
        rw [ih2.2.1, happ]
      · simp only [runCalls, hstep]
        rw [ih2.2.2, hpm2]

/-- Cumulative counters after a run of successful `log_query_end` calls. -/
theorem runSuccessLogs_totals :
    ∀ (es : List (ℚ × QueryResponse)) (m : Metrics),
      (runSuccessLogs m es).successful_queries = m.successful_queries + es.length ∧
      (runSuccessLogs m es).total_response_time
        = m.total_response_time + (es.map Prod.fst).sum ∧
      (runSuccessLogs m es).total_citations
        = m.total_citations + (es.map (fun e => e.2.citations.length)).sum := by
  intro es
  induction es with
  | nil => intro m; simp [runSuccessLogs]
  | cons e rest ih =>
      intro m
      obtain ⟨d, r⟩ := e
      have h := ih (log_query_end m d true (some r))
      refine ⟨?_, ?_, ?_⟩
      · rw [runSuccessLogs, h.1]; simp [log_query_end]; omega
      · rw [runSuccessLogs, h.2.1]; simp [log_query_end]; ring
      · rw [runSuccessLogs, h.2.2]; simp [log_query_end]; omega

theorem log_query_end_consistent (m : Metrics) (d : ℚ) (s : Bool)
    (r : Option QueryResponse) : (log_query_end m d s r).Consistent := by
  constructor <;> rfl

theorem runSuccessLogs_consistent :
    ∀ (es : List (ℚ × QueryResponse)) (m : Metrics), es ≠ [] →
      (runSuccessLogs m es).Consistent := by
  intro es
  induction es with
  | nil => intro m h; exact absurd rfl h
  | cons e rest ih =>
      intro m _
      obtain ⟨d, r⟩ := e
      match rest with
      | [] => exact log_query_end_consistent m d true (some r)
      | e2 :: rest2 =>
          exact ih (log_query_end m d true (some r)) (by simp)

/-! ## The claims -/

/-- C4: `get(q, s)` performed at any time up to the expiry written by
`set(q, v, s, ttl)` (in particular immediately after, for any ttl > 0)
returns exactly `v`; whenever `get` finds an entry whose expiry is strictly
in the past it deletes the entry and reports absent; and an entry is visible
to `get` iff the current time is at most its expiry. -/
theorem claim_c4 {α : Type} :
    (∀ (c : SimpleCache α) (now now2 : ℚ) (q s : String) (v : α) (ttl : Int),
      0 < ttl → now2 ≤ now + (ttl : ℚ) →
      ((SimpleCache.set c now q v s (some ttl)).get now2 q s).1 = some v) ∧
    (∀ (c : SimpleCache α) (now : ℚ) (q s : String) (v : α) (e : ℚ),
      c.cache (generate_key q s) = some (v, e) → e < now →
      (SimpleCache.get c now q s).1 = none ∧
      ((SimpleCache.get c now q s).2).cache (generate_key q s) = none) ∧
    (∀ (c : SimpleCache α) (now : ℚ) (q s : String),
      ((SimpleCache.get c now q s).1).isSome = true ↔
        ∃ v e, c.cache (generate_key q s) = some (v, e) ∧ now ≤ e) := by
  refine ⟨?_, ?_, ?_⟩
  · intro c now now2 q s v ttl _ h2
    have hn : ¬ (now2 > now + (ttl : ℚ)) := not_lt.mpr h2
    simp [SimpleCache.set, SimpleCache.get, hn]
  · intro c now q s v e hentry hexp
    simp [SimpleCache.get, hentry, hexp]
  · intro c now q s
    cases hentry : c.cache (generate_key q s) with
    | none => simp [SimpleCache.get, hentry]
    | some item =>
        by_cases hexp : now > item.2
        · simp only [SimpleCache.get, hentry]
          rw [if_pos hexp]
          simp only [Option.isSome_none, Bool.false_eq_true, false_iff]
          rintro ⟨v, e, he, hle⟩
          rw [Option.some_inj] at he
          subst he
          exact absurd hle (not_le.mpr hexp)
        · simp only [SimpleCache.get, hentry]
          rw [if_neg hexp]
          simp only [Option.isSome_some, true_iff]
          exact ⟨item.1, item.2, rfl, not_lt.mp hexp⟩

/-- C4 witness: set then immediate get on a concrete fresh cache. -/
theorem claim_c4_witness :
    (0 : Int) < 60 ∧ (0 : ℚ) ≤ 0 + ((60 : Int) : ℚ) ∧
    (((SimpleCache.empty Nat).set 0 "q" 42 "s" (some 60)).get 0 "q" "s").1 = some 42 :=
  ⟨by decide, by simp,
    claim_c4.1 (SimpleCache.empty Nat) 0 0 "q" "s" 42 60 (by decide) (by simp)⟩

/-- C9: the cache fingerprint is a deterministic function of
(query, selected_text); an omitted `selected_text` (both the Python default
argument and the `QueryRequest` field default forwarded by the orchestrator)
is the empty string, so get/set/delete with the argument omitted address
exactly the entry addressed with `selected_text = ""`. -/
theorem claim_c9 {α : Type} :
    (∀ q s, generate_key q s = q ++ "::" ++ s) ∧
    (∀ q, generate_key q = generate_key q "") ∧
    (∀ q, ({ query := q } : QueryRequest).selected_text = "") ∧
    (∀ q, generate_key q (({ query := q } : QueryRequest).selected_text)
            = generate_key q "") ∧
    (∀ (c : SimpleCache α) (now : ℚ) (q : String) (v : α),
      c.get now q = c.get now q "" ∧
      c.set now q v = c.set now q v "" ∧
      c.delete q = c.delete q "") :=
  ⟨fun _ _ => rfl, fun _ => rfl, fun _ => rfl, fun _ => rfl,
    fun _ _ _ _ => ⟨rfl, rfl, rfl⟩⟩

/-- C10: the fingerprint is not injective: the distinct pairs
`("a::b", "c")` and `("a", "b::c")` hash the same cache input `"a::b::c"`, so
a `set` under one pair is observed by a `get` under the other, and a later
`set` under the other pair overwrites the first entry. -/
theorem claim_c10 :
    generate_key "a::b" "c" = generate_key "a" "b::c" ∧
    (("a::b", "c") : String × String) ≠ ("a", "b::c") ∧
    (((SimpleCache.empty Nat).set 0 "a::b" 1 "c" (some 60)).get 0 "a" "b::c").1
      = some 1 ∧
    ((((SimpleCache.empty Nat).set 0 "a::b" 1 "c" (some 60)).set 0 "a" 2 "b::c"
        (some 60)).get 0 "a::b" "c").1 = some 2 := by
  refine ⟨rfl, by decide, ?_, ?_⟩ <;>
    · have h : ¬ ((60 : ℚ) < 0) := by norm_num
      simp [SimpleCache.empty, SimpleCache.set, SimpleCache.get, generate_key, h]

/-- C5: with limit N, the first N `is_allowed` calls for one identity inside a
shared 60-second window all return true, each appending its timestamp; an
(N+1)th call still inside the window returns false and records nothing; and a
call made once 60 seconds have elapsed past every recorded timestamp is
allowed again, because each call prunes timestamps older than 60s relative to
its own "now" (sliding window) before counting. -/
theorem claim_c5 (N : Nat) (key : String) (times : List ℚ) (u v : ℚ)
    (hN : 0 < N) (hlen : times.length = N)
    (hwin : ∀ x ∈ times, ∀ y ∈ times, y - x < 60)
    (hu : ∀ t ∈ times, u - t < 60)
    (hv : ∀ t ∈ times, 60 ≤ v - t) :
    (runCalls (RateLimiter.new N) key times).1 = List.replicate N true ∧
    (runCalls (RateLimiter.new N) key times).2.requests key = times ∧
    (((runCalls (RateLimiter.new N) key times).2).is_allowed u key).1 = false ∧
    ((((runCalls (RateLimiter.new N) key times).2).is_allowed u key).2).requests key
      = times ∧
    (((runCalls (RateLimiter.new N) key times).2).is_allowed v key).1 = true := by
  have hbase := runCalls_under_limit key times (RateLimiter.new N)
    (by
      intro x hx y hy
      simp only [RateLimiter.new, List.nil_append] at hx
      exact hwin x hx y hy)
    (by simp [RateLimiter.new, hlen])
  have hreq : (runCalls (RateLimiter.new N) key times).2.requests key = times := by
    rw [hbase.2.1]; simp [RateLimiter.new]
  have hpm : (runCalls (RateLimiter.new N) key times).2.requests_per_minute = N :=
    hbase.2.2
  have hufilter : times.filter (fun t => decide (u - t < 60)) = times :=
    filter_window_eq_self u times hu
  have hvfilter : times.filter (fun t => decide (v - t < 60)) = [] := by
    rw [List.filter_eq_nil_iff]
    intro t ht
    simp only [decide_eq_true_eq, not_lt]
    exact hv t ht
  refine ⟨by rw [hbase.1, hlen], hreq, ?_, ?_, ?_⟩
  · simp only [RateLimiter.is_allowed, hreq, hpm, hufilter, hlen, lt_irrefl,
      if_false]
  · simp only [RateLimiter.is_allowed, hreq, hpm, hufilter, hlen, lt_irrefl,
      if_false]
    simp
  · simp only [RateLimiter.is_allowed, hreq, hpm, hvfilter, List.length_nil,
      if_pos hN]

/-- Window facts for the C5 witness instance. -/
theorem c5_window_facts :
    (∀ x ∈ [(0 : ℚ), 1], ∀ y ∈ [(0 : ℚ), 1], y - x < 60) ∧
    (∀ t ∈ [(0 : ℚ), 1], (2 : ℚ) - t < 60) ∧
    (∀ t ∈ [(0 : ℚ), 1], (60 : ℚ) ≤ (100 : ℚ) - t) := by
  refine ⟨?_, ?_, ?_⟩ <;> · intro x hx; fin_cases hx <;> norm_num

/-- C5 witness: limit 2, calls at times 0 and 1, a third call at time 2
denied, a call at time 100 allowed again. -/
theorem claim_c5_witness :
    0 < 2 ∧ ([(0 : ℚ), 1]).length = 2 ∧
    (runCalls (RateLimiter.new 2) "k" [(0 : ℚ), 1]).1 = List.replicate 2 true ∧
    (((runCalls (RateLimiter.new 2) "k" [(0 : ℚ), 1]).2).is_allowed 2 "k").1 = false ∧
    (((runCalls (RateLimiter.new 2) "k" [(0 : ℚ), 1]).2).is_allowed 100 "k").1 = true := by
  have h := claim_c5 2 "k" [(0 : ℚ), 1] 2 100 (by decide) rfl
    c5_window_facts.1 (by
      intro t ht
      exact c5_window_facts.2.1 t ht)
    (by
      intro t ht
      exact c5_window_facts.2.2 t ht)
  exact ⟨by decide, rfl, h.1, h.2.2.1, h.2.2.2.2⟩

/-- C6: after k successful `log_query_end` calls (and no failed ones) from the
initial state, with durations d1..dk and responses carrying c1..ck citations,
the averages are sum(d)/k and sum(c)/k; and any `log_query_end` output with
zero successful queries has both averages 0 (the division is guarded, so no
division by zero occurs), as does the initial state. -/
theorem claim_c6 :
    (∀ es : List (ℚ × QueryResponse), es ≠ [] →
      (runSuccessLogs initMetrics es).avg_response_time
        = (es.map Prod.fst).sum / (es.length : ℚ) ∧
      (runSuccessLogs initMetrics es).avg_citations_per_response
        = (es.map (fun e => ((e.2.citations.length : ℚ)))).sum / (es.length : ℚ)) ∧
    (∀ (m : Metrics) (d : ℚ) (s : Bool) (r : Option QueryResponse),
      (log_query_end m d s r).successful_queries = 0 →
      (log_query_end m d s r).avg_response_time = 0 ∧
      (log_query_end m d s r).avg_citations_per_response = 0) ∧
    (initMetrics.avg_response_time = 0 ∧ initMetrics.avg_citations_per_response = 0) := by
  refine ⟨?_, ?_, rfl, rfl⟩
  · intro es hne
    have ht := runSuccessLogs_totals es initMetrics
    have hc := runSuccessLogs_consistent es initMetrics hne
    have hlen : 0 < es.length := List.length_pos.mpr hne
    constructor
    · rw [hc.1, ht.1, ht.2.1]
      simp only [initMetrics, Nat.zero_add, zero_add]
      rw [if_pos hlen]
    · rw [hc.2, ht.1, ht.2.2]
      simp only [initMetrics, Nat.zero_add, zero_add]
      rw [if_pos hlen, Nat.cast_list_sum, List.map_map]
      simp only [Function.comp_def]
  · intro m d s r h
    cases s
    · simp only [log_query_end, if_neg Bool.false_ne_true] at h ⊢
      rw [h] at *
      simp
    · simp [log_query_end] at h

/-- C6 witness: one successful log with duration 3 and a 2-citation
response. -/
theorem claim_c6_witness :
    ([((3 : ℚ), metricsResp)] ≠ []) ∧
    (runSuccessLogs initMetrics [((3 : ℚ), metricsResp)]).avg_response_time
      = ([((3 : ℚ), metricsResp)].map Prod.fst).sum
          / (([((3 : ℚ), metricsResp)]).length : ℚ) ∧
    (runSuccessLogs initMetrics [((3 : ℚ), metricsResp)]).avg_citations_per_response
      = ([((3 : ℚ), metricsResp)].map (fun e => ((e.2.citations.length : ℚ)))).sum
          / (([((3 : ℚ), metricsResp)]).length : ℚ) :=
  ⟨by simp, (claim_c6.1 _ (by simp)).1, (claim_c6.1 _ (by simp)).2⟩

/-- Inversion of a successful `Citation` construction. -/
theorem mkCitation_ok {did t u s : String} {r : ℚ} {c : Citation}
    (h : mkCitation did t u s r = .ok c) :
    c = { document_id := did, title := t, url := u, text_snippet := s,
          relevance_score := r } ∧
    citationUrlOk u = true ∧ 10 ≤ s.length ∧ s.length ≤ 1000 ∧ 0 ≤ r ∧ r ≤ 1 := by
  unfold mkCitation at h
  split_ifs at h with h1 h2 h3
  · simp only [Except.ok.injEq] at h
    exact ⟨h.symm, h1, h2.1, h2.2, h3.1, h3.2⟩

/-- The URL of any successfully constructed citation passes the pydantic
pattern. -/
theorem mkCitation_ok_url {did t u s : String} {r : ℚ} {c : Citation}
    (h : mkCitation did t u s r = .ok c) : citationUrlOk c.url = true := by
  obtain ⟨hc, h1, -⟩ := mkCitation_ok h
  subst hc
  exact h1

/-- Inversion of a successful `QueryResponse` construction. -/
theorem mkQueryResponse_ok {a : String} {cs : List Citation} {qid ts : String}
    {md : Option MetaDict} {r : QueryResponse}
    (h : mkQueryResponse a cs qid ts md = .ok r) :
    r = { answer := a, citations := cs, query_id := qid, timestamp := ts,
          metadata := md } ∧
    1 ≤ a.length ∧ a.length ≤ 10000 ∧ cs.length ≤ 20 := by
  unfold mkQueryResponse at h
  split_ifs at h with h1 h2
  · simp only [Except.ok.injEq] at h
    exact ⟨h.symm, h1.1, h1.2, h2⟩

/-- A successfully constructed `QueryResponse` is well-formed. -/
theorem mkQueryResponse_wf {a : String} {cs : List Citation} {qid ts : String}
    {md : Option MetaDict} {r : QueryResponse}
    (h : mkQueryResponse a cs qid ts md = .ok r) : r.WellFormed := by
  obtain ⟨hr, h1, h2, h3⟩ := mkQueryResponse_ok h
  subst hr
  exact ⟨h1, h2, h3⟩

/-- Every element of a successful `mapExcept` run comes from a successful
application of the constructor to some input element. -/
theorem mapExcept_ok_mem {α β : Type} {f : α → Except String β} :
    ∀ {xs : List α} {ys : List β}, mapExcept f xs = .ok ys →
      ∀ y ∈ ys, ∃ x ∈ xs, f x = .ok y := by
  intro xs
  induction xs with
  | nil =>
      intro ys h y hy
      simp only [mapExcept, Except.ok.injEq] at h
      subst h
      simp at hy
  | cons a as ih =>
      intro ys h y hy
      rw [mapExcept] at h
      cases hfa : f a with
      | error e =>
          simp only [hfa] at h
          exact Except.noConfusion h
      | ok b =>
          simp only [hfa] at h
          cases hrec : mapExcept f as with
          | error e =>
              simp only [hrec] at h
              exact Except.noConfusion h
          | ok bs =>
              simp only [hrec, Except.ok.injEq] at h
              subst h
              rcases List.mem_cons.mp hy with hyb | hybs
              · subst hyb
                exact ⟨a, List.mem_cons_self a as, hfa⟩
              · obtain ⟨x, hx, hfx⟩ := ih hrec y hybs
                exact ⟨x, List.mem_cons_of_mem a hx, hfx⟩

/-- The URL of a citation built from a document dict passes the pattern. -/
theorem citationFromDoc_ok_url {d : Doc} {c : Citation}
    (h : citationFromDoc d = .ok c) : citationUrlOk c.url = true := by
  unfold citationFromDoc at h
  exact mkCitation_ok_url h

/-- The URL of a citation re-validated from a cached dict passes the
pattern. -/
theorem parseCitation_ok_url {d : CitationData} {c : Citation}
    (h : parseCitation d = .ok c) : citationUrlOk c.url = true := by
  unfold parseCitation at h
  exact mkCitation_ok_url h

/-- Membership in the validation filter: a citation survives iff it was
present and its URL starts with `http` or `/` (a URL starting with either is
in particular non-empty, so the truthiness conjunct is redundant). -/
theorem validate_mem_iff (cs : List Citation) (c : Citation) :
    c ∈ validate_citation_links cs ↔
      c ∈ cs ∧ (strStartsWith c.url "http" = true ∨ strStartsWith c.url "/" = true) := by
  unfold validate_citation_links
  rw [List.mem_filter]
  constructor
  · rintro ⟨hm, hp⟩
    simp only [Bool.and_eq_true, Bool.or_eq_true] at hp
    exact ⟨hm, hp.2⟩
  · rintro ⟨hm, hp⟩
    refine ⟨hm, ?_⟩
    have hne : c.url ≠ "" := by
      intro he
      rcases hp with h | h <;> rw [he] at h
      · exact absurd h (by decide)
      · exact absurd h (by decide)
    simp only [Bool.and_eq_true, Bool.or_eq_true, bne_iff_ne]
    exact ⟨hne, hp⟩

/-- Reconstructing a cached response yields a well-formed response whose
citation URLs all pass the pattern. -/
theorem parseQueryResponse_ok {d : RespData} {r : QueryResponse}
    (h : parseQueryResponse d = .ok r) :
    r.WellFormed ∧ ∀ c ∈ r.citations, citationUrlOk c.url = true := by
  unfold parseQueryResponse at h
  cases hm : mapExcept parseCitation d.citations with
  | error e =>
      simp only [hm] at h
      exact Except.noConfusion h
  | ok cs =>
      simp only [hm] at h
      obtain ⟨hr, h1, h2, h3⟩ := mkQueryResponse_ok h
      subst hr
      refine ⟨⟨h1, h2, h3⟩, ?_⟩
      intro c hc
      obtain ⟨x, -, hx⟩ := mapExcept_ok_mem hm c hc
      exact parseCitation_ok_url hx

/-- The error response of the `except` handler is well-formed. -/
theorem errorResponse_wf (e : String) (env : Env) :
    (errorResponse e env).WellFormed := by
  have h1 : 1 ≤ errorAnswer.length := by decide
  have h2 : errorAnswer.length ≤ 10000 := by decide
  exact ⟨h1, h2, by simp [errorResponse]⟩

/-- Every successful outcome of the `try` block carries a well-formed
response all of whose citation URLs pass the pydantic pattern. -/
theorem tryBody_ok_inv {req : QueryRequest} {env : Env} {c : SimpleCache RespData}
    {tnow : ℚ} {out : QueryResponse × Bool × SimpleCache RespData}
    (h : tryBody req env c tnow = .ok out) :
    out.1.WellFormed ∧ ∀ x ∈ out.1.citations, citationUrlOk x.url = true := by
  simp only [tryBody] at h
  cases hg : (SimpleCache.get c tnow req.query req.selected_text).1 with
  | some cached =>
      simp only [hg] at h
      cases hp : parseQueryResponse
          { cached with query_id := env.freshUuid, timestamp := env.now } with
      | error e =>
          simp only [hp] at h
          exact Except.noConfusion h
      | ok resp =>
          simp only [hp, Except.ok.injEq] at h
          subst h
          exact parseQueryResponse_ok hp
  | none =>
      simp only [hg] at h
      by_cases he : generate_embedding env (combinedQueryText req) = []
      · rw [if_pos he] at h
        exact Except.noConfusion h
      · rw [if_neg he] at h
        cases hs : env.searchDocs (generate_embedding env (combinedQueryText req)) with
        | error e =>
            simp only [hs] at h
            exact Except.noConfusion h
        | ok docs =>
            simp only [hs] at h
            cases docs with
            | nil =>
                simp only [Except.ok.injEq] at h
                subst h
                have h1 : 1 ≤ noResultsAnswer.length := by decide
                have h2 : noResultsAnswer.length ≤ 10000 := by decide
                refine ⟨⟨h1, h2, by simp⟩, ?_⟩
                intro x hx
                simp at hx
            | cons d ds =>
                cases ha : env.agentGenerate req.query (d :: ds) req.selected_text with
                | error e =>
                    simp only [ha] at h
                    exact Except.noConfusion h
                | ok agent =>
                    simp only [ha] at h
                    cases hm : mapExcept citationFromDoc (d :: ds) with
                    | error e =>
                        simp only [hm] at h
                        exact Except.noConfusion h
                    | ok raw =>
                        simp only [hm] at h
                        cases hq : mkQueryResponse agent.answer
                            (validate_citation_links
                              (enhance_citation_relevance raw req.query))
                            env.freshUuid env.now (some (agent.metadata.getD [])) with
                        | error e =>
                            simp only [hq] at h
                            exact Except.noConfusion h
                        | ok resp =>
                            simp only [hq, Except.ok.injEq] at h
                            subst h
                            obtain ⟨hr, h1, h2, h3⟩ := mkQueryResponse_ok hq
                            refine ⟨mkQueryResponse_wf hq, ?_⟩
                            intro x hx
                            rw [hr] at hx
                            have hxraw : x ∈ raw :=
                              ((validate_mem_iff _ x).mp hx).1
                            obtain ⟨doc, -, hdoc⟩ := mapExcept_ok_mem hm x hxraw
                            exact citationFromDoc_ok_url hdoc

/-- The truncated snippet is at most `n` characters long. -/
theorem strTake_length_le (s : String) (n : Nat) : (strTake s n).length ≤ n := by
  show (s.data.take n).length ≤ n
  rw [List.length_take]
  exact min_le_left _ _

/-- Every citation returned by `query_documentation` has a URL passing the
pydantic pattern (responses of the error and no-results branches have no
citations at all). -/
theorem query_documentation_citations_urlOk (req : QueryRequest) (env : Env)
    (c : SimpleCache RespData) (tnow : ℚ) (x : Citation)
    (hx : x ∈ (query_documentation req env c tnow).response.citations) :
    citationUrlOk x.url = true := by
  revert hx
  unfold query_documentation
  cases h : tryBody req env c tnow with
  | ok out =>
      obtain ⟨resp, succ, c2⟩ := out
      intro hx
      exact (tryBody_ok_inv h).2 x hx
  | error e =>
      intro hx
      simp [errorResponse] at hx

/-- C1: `query_documentation` is a total function of the request and the
collaborator behaviours — no exception propagates to its caller — and every
returned response is a well-formed `QueryResponse`; whenever the `try` block
raises (any internal failure, including a raising collaborator), the returned
response is exactly the generic error response: apology answer, empty
citations, the freshly generated query id and timestamp, an error note in
metadata, and the query is logged as failed in metrics. -/
theorem claim_c1 :
    (∀ (req : QueryRequest) (env : Env) (c : SimpleCache RespData) (tnow : ℚ),
      (query_documentation req env c tnow).response.WellFormed) ∧
    (∀ (req : QueryRequest) (env : Env) (c : SimpleCache RespData) (tnow : ℚ)
        (e : String),
      tryBody req env c tnow = .error e →
      (query_documentation req env c tnow).response = errorResponse e env ∧
      (query_documentation req env c tnow).loggedSuccess = false ∧
      (errorResponse e env).answer = errorAnswer ∧
      (errorResponse e env).citations = [] ∧
      (errorResponse e env).query_id = env.freshUuid ∧
      (errorResponse e env).timestamp = env.now ∧
      (errorResponse e env).metadata = some [("error", e)]) := by
  constructor
  · intro req env c tnow
    unfold query_documentation
    cases h : tryBody req env c tnow with
    | ok out =>
        obtain ⟨resp, succ, c2⟩ := out
        exact (tryBody_ok_inv h).1
    | error e =>
        exact errorResponse_wf e env
  · intro req env c tnow e h
    unfold query_documentation
    rw [h]
    exact ⟨rfl, rfl, rfl, rfl, rfl, rfl, rfl⟩

/-- C1 witness: a generation collaborator that raises `"boom"` yields the
generic error response, logged as failed. -/
theorem claim_c1_witness :
    tryBody reqW envBoom (SimpleCache.empty RespData) 0 = .error "boom" ∧
    (query_documentation reqW envBoom (SimpleCache.empty RespData) 0).response
      = errorResponse "boom" envBoom ∧
    (query_documentation reqW envBoom (SimpleCache.empty RespData) 0).loggedSuccess
      = false :=
  ⟨rfl,
    (claim_c1.2 reqW envBoom (SimpleCache.empty RespData) 0 "boom" rfl).1,
    (claim_c1.2 reqW envBoom (SimpleCache.empty RespData) 0 "boom" rfl).2.1⟩

/-- C2: on a cache miss, if the embedding step produces the empty vector
(`if not query_embedding`), the request is fatal: the orchestrator raises
internally, the caller receives the generic failure response with empty
citations, the query is logged as failed, and the outcome does not depend on
the search collaborator at all (retrieval is never reached). -/
theorem claim_c2 (req : QueryRequest) (env : Env) (c : SimpleCache RespData)
    (tnow : ℚ)
    (hmiss : (SimpleCache.get c tnow req.query req.selected_text).1 = none)
    (hemb : generate_embedding env (combinedQueryText req) = []) :
    tryBody req env c tnow = .error "Failed to generate query embedding" ∧
    (query_documentation req env c tnow).response
      = errorResponse "Failed to generate query embedding" env ∧
    (query_documentation req env c tnow).response.citations = [] ∧
    (query_documentation req env c tnow).loggedSuccess = false ∧
    (∀ sd, query_documentation req { env with searchDocs := sd } c tnow
      = query_documentation req env c tnow) := by
  have h1 : tryBody req env c tnow = .error "Failed to generate query embedding" := by
    simp only [tryBody, hmiss]
    rw [if_pos hemb]
  have h2 : ∀ sd, tryBody req { env with searchDocs := sd } c tnow
      = .error "Failed to generate query embedding" := by
    intro sd
    simp only [tryBody, hmiss]
    rw [if_pos (show generate_embedding { env with searchDocs := sd }
      (combinedQueryText req) = [] from hemb)]
  refine ⟨h1, ?_, ?_, ?_, ?_⟩
  · unfold query_documentation
    rw [h1]
  · unfold query_documentation
    rw [h1]
    rfl
  · unfold query_documentation
    rw [h1]
  · intro sd
    unfold query_documentation
    rw [h1, h2 sd]
    rfl

/-- C2 witness: an embedding client succeeding with an empty first embedding
makes the request fail generically. -/
theorem claim_c2_witness :
    (SimpleCache.get (SimpleCache.empty RespData) 0 reqW.query reqW.selected_text).1
      = none ∧
    generate_embedding envEmbEmpty (combinedQueryText reqW) = [] ∧
    (query_documentation reqW envEmbEmpty (SimpleCache.empty RespData) 0).response
      = errorResponse "Failed to generate query embedding" envEmbEmpty ∧
    (query_documentation reqW envEmbEmpty (SimpleCache.empty RespData) 0).loggedSuccess
      = false :=
  ⟨rfl, rfl,
    (claim_c2 reqW envEmbEmpty (SimpleCache.empty RespData) 0 rfl rfl).2.1,
    (claim_c2 reqW envEmbEmpty (SimpleCache.empty RespData) 0 rfl rfl).2.2.2.1⟩

/-- C8: on a cache miss with a non-empty embedding, if retrieval yields zero
documents the response carries the fixed no-results answer, empty citations
and the fresh id/timestamp; the query is logged as failed even though no
exception occurred, and nothing is written to the cache (the cache state is
exactly the post-lookup state). -/
theorem claim_c8 (req : QueryRequest) (env : Env) (c : SimpleCache RespData)
    (tnow : ℚ)
    (hmiss : (SimpleCache.get c tnow req.query req.selected_text).1 = none)
    (hemb : generate_embedding env (combinedQueryText req) ≠ [])
    (hsearch : env.searchDocs (generate_embedding env (combinedQueryText req))
      = .ok []) :
    (query_documentation req env c tnow).response.answer = noResultsAnswer ∧
    (query_documentation req env c tnow).response.citations = [] ∧
    (query_documentation req env c tnow).response.query_id = env.freshUuid ∧
    (query_documentation req env c tnow).response.timestamp = env.now ∧
    (query_documentation req env c tnow).loggedSuccess = false ∧
    (query_documentation req env c tnow).cache
      = (SimpleCache.get c tnow req.query req.selected_text).2 := by
  have h1 : tryBody req env c tnow = .ok
      ({ answer := noResultsAnswer, citations := [], query_id := env.freshUuid,
         timestamp := env.now, metadata := none }, false,
        (SimpleCache.get c tnow req.query req.selected_text).2) := by
    simp only [tryBody, hmiss]
    rw [if_neg hemb]
    simp only [hsearch]
  unfold query_documentation
  rw [h1]
  exact ⟨rfl, rfl, rfl, rfl, rfl, rfl⟩

/-- C8 witness: a concrete empty retrieval. -/
theorem claim_c8_witness :
    (SimpleCache.get (SimpleCache.empty RespData) 0 reqW.query reqW.selected_text).1
      = none ∧
    generate_embedding envNoDocs (combinedQueryText reqW) ≠ [] ∧
    envNoDocs.searchDocs (generate_embedding envNoDocs (combinedQueryText reqW))
      = .ok [] ∧
    (query_documentation reqW envNoDocs (SimpleCache.empty RespData) 0).response.answer
      = noResultsAnswer ∧
    (query_documentation reqW envNoDocs (SimpleCache.empty RespData) 0).loggedSuccess
      = false :=
  ⟨rfl, by decide, rfl,
    (claim_c8 reqW envNoDocs (SimpleCache.empty RespData) 0 rfl (by decide) rfl).1,
    (claim_c8 reqW envNoDocs (SimpleCache.empty RespData) 0 rfl (by decide) rfl).2.2.2.2.1⟩

/-- C3 counterexample: the citation built from a retrieved document with all
fields missing does NOT construct successfully — the defaulted empty url
fails the pydantic pattern, the raised validation error escapes to the
request-level `except` handler, and the whole request degrades to the generic
error response logged as failed. This falsifies "this construction never
fails" and "never escalate to the request-level error path". -/
theorem claim_c3_counterexample :
    citationFromDoc emptyDoc = .error "Citation.url: string does not match pattern" ∧
    (query_documentation reqW envEmptyDoc (SimpleCache.empty RespData) 0).response.answer
      = errorAnswer ∧
    (query_documentation reqW envEmptyDoc (SimpleCache.empty RespData) 0).response.citations
      = [] ∧
    (query_documentation reqW envEmptyDoc (SimpleCache.empty RespData) 0).loggedSuccess
      = false :=
  ⟨rfl, rfl, rfl, rfl⟩

/-- C3 (amended): for every retrieved document the orchestrator supplies the
defaults (empty string / 0.0) for missing id/title/url/snippet/relevance
fields and truncates the snippet to at most 500 characters; the construction
succeeds exactly when the defaulted fields pass the `Citation` model
validation (URL pattern, snippet length at least 10, relevance in [0,1]),
and when it fails the raised validation error escalates to the request-level
error path: the request returns the generic error response and is logged as
failed. -/
theorem claim_c3 :
    (∀ (doc : Doc) (c : Citation), citationFromDoc doc = .ok c →
      c.document_id = doc.document_id.getD "" ∧
      c.title = doc.title.getD "" ∧
      c.url = doc.url.getD "" ∧
      c.text_snippet = strTake (doc.text_snippet.getD "") 500 ∧
      c.relevance_score = doc.relevance_score.getD 0 ∧
      c.text_snippet.length ≤ 500) ∧
    (∀ doc : Doc, (citationFromDoc doc).isOk = true ↔
      (citationUrlOk (doc.url.getD "") = true ∧
       10 ≤ (strTake (doc.text_snippet.getD "") 500).length ∧
       0 ≤ doc.relevance_score.getD 0 ∧ doc.relevance_score.getD 0 ≤ 1)) ∧
    (∀ (req : QueryRequest) (env : Env) (cst : SimpleCache RespData) (tnow : ℚ)
        (d : Doc) (ds : List Doc) (agent : AgentResp) (e : String),
      (SimpleCache.get cst tnow req.query req.selected_text).1 = none →
      generate_embedding env (combinedQueryText req) ≠ [] →
      env.searchDocs (generate_embedding env (combinedQueryText req))
        = .ok (d :: ds) →
      env.agentGenerate req.query (d :: ds) req.selected_text = .ok agent →
      mapExcept citationFromDoc (d :: ds) = .error e →
      (query_documentation req env cst tnow).response = errorResponse e env ∧
      (query_documentation req env cst tnow).loggedSuccess = false) := by
  refine ⟨?_, ?_, ?_⟩
  · intro doc c h
    unfold citationFromDoc at h
    obtain ⟨hc, -⟩ := mkCitation_ok h
    subst hc
    exact ⟨rfl, rfl, rfl, rfl, rfl, strTake_length_le _ 500⟩
  · intro doc
    unfold citationFromDoc mkCitation
    constructor
    · intro h
      split_ifs at h with h1 h2 h3
      · exact ⟨h1, h2.1, h3.1, h3.2⟩
      all_goals exact absurd h (by decide)
    · rintro ⟨hu, hl, h0, h1⟩
      rw [if_pos hu,
        if_pos ⟨hl, le_trans (strTake_length_le _ _) (by norm_num)⟩,
        if_pos ⟨h0, h1⟩]
      rfl
  · intro req env cst tnow d ds agent e hmiss hemb hsearch hagent hmap
    have h1 : tryBody req env cst tnow = .error e := by
      simp only [tryBody, hmiss]
      rw [if_neg hemb]
      simp only [hsearch, hagent, hmap]
    unfold query_documentation
    rw [h1]
    exact ⟨rfl, rfl⟩

/-- C3 witness: the amended escalation clause at the concrete
all-fields-missing document. -/
theorem claim_c3_witness :
    (SimpleCache.get (SimpleCache.empty RespData) 0 reqW.query reqW.selected_text).1
      = none ∧
    generate_embedding envEmptyDoc (combinedQueryText reqW) ≠ [] ∧
    mapExcept citationFromDoc [emptyDoc]
      = .error "Citation.url: string does not match pattern" ∧
    (query_documentation reqW envEmptyDoc (SimpleCache.empty RespData) 0).response
      = errorResponse "Citation.url: string does not match pattern" envEmptyDoc ∧
    (query_documentation reqW envEmptyDoc (SimpleCache.empty RespData) 0).loggedSuccess
      = false :=
  ⟨rfl, by decide, rfl,
    (claim_c3.2.2 reqW envEmptyDoc (SimpleCache.empty RespData) 0 emptyDoc []
      { answer := "a generated answer" } "Citation.url: string does not match pattern"
      rfl (by decide) rfl rfl rfl).1,
    (claim_c3.2.2 reqW envEmptyDoc (SimpleCache.empty RespData) 0 emptyDoc []
      { answer := "a generated answer" } "Citation.url: string does not match pattern"
      rfl (by decide) rfl rfl rfl).2⟩

/-- C7: the validation step keeps exactly the citations whose URL starts with
`http` or `/`; every citation in any returned response passes the pydantic
URL pattern, so in particular a document with url `"ftp://bad"` (which fails
the pattern) can never appear among returned citations; and concrete requests
whose retrieval yields a document with url `"/docs/x"` or `"https://x"` do
return that document as a citation. -/
theorem claim_c7 :
    (∀ (cs : List Citation) (x : Citation),
      x ∈ validate_citation_links cs ↔
        x ∈ cs ∧ (strStartsWith x.url "http" = true ∨ strStartsWith x.url "/" = true)) ∧
    (∀ (req : QueryRequest) (env : Env) (c : SimpleCache RespData) (tnow : ℚ)
        (x : Citation),
      x ∈ (query_documentation req env c tnow).response.citations →
        citationUrlOk x.url = true) ∧
    citationUrlOk "ftp://bad" = false ∧
    (∀ (req : QueryRequest) (env : Env) (c : SimpleCache RespData) (tnow : ℚ)
        (x : Citation),
      x ∈ (query_documentation req env c tnow).response.citations →
        x.url ≠ "ftp://bad") ∧
    ((query_documentation reqW envSlash (SimpleCache.empty RespData) 0).response.citations.map
        Citation.url = ["/docs/x"]) ∧
    ((query_documentation reqW envHttps (SimpleCache.empty RespData) 0).response.citations.map
        Citation.url = ["https://x"]) := by
  refine ⟨validate_mem_iff, query_documentation_citations_urlOk, by decide, ?_,
    by decide, by decide⟩
  intro req env c tnow x hx he
  have h := query_documentation_citations_urlOk req env c tnow x hx
  rw [he] at h
  exact absurd h (by decide)

/-- C7 witness: the `/docs/x` citation is returned by the concrete run, and
its URL passes the pattern. -/
theorem claim_c7_witness :
    citSlash ∈ (query_documentation reqW envSlash (SimpleCache.empty RespData) 0).response.citations ∧
    citationUrlOk citSlash.url = true :=
  ⟨by decide,
    claim_c7.2.1 reqW envSlash (SimpleCache.empty RespData) 0 citSlash (by decide)⟩
